import Mathlib

/-!
Verification of the HelloblueGK artifact-generation pipeline.

The development shallowly embeds the Python sources:
* `src/open_in_plasticity.py` (the "root" designer),
* `src/Scripts/Integration/open_in_plasticity.py` (the "integration" designer),
* `src/engine_visualization.py` (the visualizer and its geometry samplers).

Numeric values are modelled as rationals (all literals in the sources are
exactly representable); strings as Lean `String`.
-/

/-! ## Data model: the EngineDesign record (spec §3, mirrored from the
`design_data` dict literals in the sources). -/

structure Specifications where
  thrust : ℚ
  specific_impulse : ℚ
  chamber_pressure : ℚ
  expansion_ratio : ℚ
  efficiency : ℚ
  technology_readiness_level : ℚ
deriving DecidableEq, Repr

structure EngineGeometry where
  chamber_diameter : ℚ
  chamber_length : ℚ
  throat_diameter : ℚ
  exit_diameter : ℚ
  nozzle_length : ℚ
  expansion_angle : ℚ
deriving DecidableEq, Repr

structure Materials where
  chamber : String
  nozzle : String
  injector : String
  turbopump : String
deriving DecidableEq, Repr

structure PerformanceMetrics where
  cfd_convergence : ℚ
  hardware_utilization : ℚ
  computation_speed : ℚ
  memory_usage : ℚ
  temperature : ℚ
  power_consumption : ℚ
deriving DecidableEq, Repr

structure EngineDesign where
  name : String
  version : String
  specifications : Specifications
  geometry : EngineGeometry
  materials : Materials
  performance_metrics : PerformanceMetrics
deriving DecidableEq, Repr

/-- The `design_data` dict of `src/open_in_plasticity.py`, lines 16-49. -/
def rootDesignData : EngineDesign where
  name := "HB-NLP Quantum-Classical Hybrid Engine"
  version := "v25.2.2"
  specifications :=
    { thrust := 2000000
      specific_impulse := 450
      chamber_pressure := 300
      expansion_ratio := 25
      efficiency := 0.95
      technology_readiness_level := 9 }
  geometry :=
    { chamber_diameter := 2.5
      chamber_length := 3
      throat_diameter := 0.8
      exit_diameter := 4
      nozzle_length := 6
      expansion_angle := 15 }
  materials :=
    { chamber := "Advanced Superalloy"
      nozzle := "Carbon-Carbon Composite"
      injector := "Titanium Alloy"
      turbopump := "Inconel 718" }
  performance_metrics :=
    { cfd_convergence := 0.998
      hardware_utilization := 0.87
      computation_speed := 1500000000000
      memory_usage := 8.2
      temperature := 45.2
      power_consumption := 320 }

/-- The `design_data` dict of `src/Scripts/Integration/open_in_plasticity.py`,
lines 22-55. -/
def integrationDesignData : EngineDesign where
  name := "HB-NLP Quantum-Classical Hybrid Engine"
  version := "v25.2.2"
  specifications :=
    { thrust := 2000000
      specific_impulse := 450
      chamber_pressure := 300
      expansion_ratio := 25
      efficiency := 0.95
      technology_readiness_level := 9 }
  geometry :=
    { chamber_diameter := 2.5
      chamber_length := 3
      throat_diameter := 0.8
      exit_diameter := 4
      nozzle_length := 6
      expansion_angle := 15 }
  materials :=
    { chamber := "Advanced Superalloy"
      nozzle := "Carbon-Carbon Composite"
      injector := "Titanium Alloy"
      turbopump := "Inconel 718" }
  performance_metrics :=
    { cfd_convergence := 0.998
      hardware_utilization := 0.87
      computation_speed := 1500000000000
      memory_usage := 8.2
      temperature := 45.2
      power_consumption := 320 }

/-- The visualizer's record (`src/engine_visualization.py`, lines 17-42)
declares only five groups: it has no `performance_metrics` dict. -/
structure VizDesignData where
  name : String
  version : String
  specifications : Specifications
  geometry : EngineGeometry
  materials : Materials
deriving DecidableEq, Repr

/-- The `design_data` dict of `src/engine_visualization.py`, lines 17-42. -/
def vizDesignData : VizDesignData where
  name := "HB-NLP Quantum-Classical Hybrid Engine"
  version := "v25.2.2"
  specifications :=
    { thrust := 2000000
      specific_impulse := 450
      chamber_pressure := 300
      expansion_ratio := 25
      efficiency := 0.95
      technology_readiness_level := 9 }
  geometry :=
    { chamber_diameter := 2.5
      chamber_length := 3
      throat_diameter := 0.8
      exit_diameter := 4
      nozzle_length := 6
      expansion_angle := 15 }
  materials :=
    { chamber := "Advanced Superalloy"
      nozzle := "Carbon-Carbon Composite"
      injector := "Titanium Alloy"
      turbopump := "Inconel 718" }

/-! ## Geometry Sampler (`src/engine_visualization.py`) -/

/-- The frustum radius profile of `EngineVisualizer.create_cone`
(`src/engine_visualization.py`, line 63):
`radius = base_radius + (top_radius - base_radius) * (z_grid / height)`. -/
def coneRadius (base_radius top_radius height z : ℚ) : ℚ :=
  base_radius + (top_radius - base_radius) * (z / height)

/-! ## Script Emitters

The generated Plasticity script is a fixed template; we embed it as the
ordered list of build steps it spells out, with the numeric parameters and
material strings substituted exactly as the f-string does. -/

inductive Step where
  | cylinder (radius height : ℚ) (material : String)
  | cone (base_radius top_radius height : ℚ) (material : String)
  | assembly (parts : List String)
  | setMaterialProperties
  | setAnalysisParameters
  | exportStl (path : String)
  | exportStep (path : String)
  | exportModel (path : String)
  | printMsg (msg : String)
deriving DecidableEq, Repr

/-- Build steps of the script rendered by
`PlasticityEngineDesigner.generate_3d_model_script` in
`src/open_in_plasticity.py`, lines 61-126. -/
def rootScriptSteps (engine_name : String) (d : EngineDesign) : List Step :=
  [ Step.cylinder (d.geometry.chamber_diameter / 2) d.geometry.chamber_length
      d.materials.chamber,
    Step.cylinder (d.geometry.throat_diameter / 2) 0.5 d.materials.chamber,
    Step.cone (d.geometry.exit_diameter / 2) (d.geometry.throat_diameter / 2)
      d.geometry.nozzle_length d.materials.nozzle,
    Step.cylinder 0.3 0.8 d.materials.injector,
    Step.cylinder 0.4 1.2 d.materials.turbopump,
    Step.assembly ["chamber", "throat", "nozzle", "injector", "turbopump"],
    Step.setMaterialProperties,
    Step.setAnalysisParameters,
    Step.exportModel (engine_name ++ "_3d_model.stl"),
    Step.printMsg "✅ HB-NLP Revolutionary Engine 3D model created successfully!" ]

/-- Build steps of the script rendered by
`PlasticityEngineDesigner.generate_3d_model_script` in
`src/Scripts/Integration/open_in_plasticity.py`, lines 67-115. -/
def integrationScriptSteps (engine_name : String) (d : EngineDesign) : List Step :=
  [ Step.cylinder (d.geometry.chamber_diameter / 2) d.geometry.chamber_length
      d.materials.chamber,
    Step.cylinder (d.geometry.throat_diameter / 2) 0.5 d.materials.chamber,
    Step.cone (d.geometry.exit_diameter / 2) (d.geometry.throat_diameter / 2)
      d.geometry.nozzle_length d.materials.nozzle,
    Step.cylinder 0.3 0.8 d.materials.injector,
    Step.cylinder 0.4 1.2 d.materials.turbopump,
    Step.assembly ["chamber", "throat", "nozzle", "injector", "turbopump"],
    Step.exportStl (engine_name ++ "_3d_model.stl"),
    Step.exportStep (engine_name ++ "_3d_model.step") ]

/-- The `engine_name` field set in both designers' `__init__`. -/
def engineName : String := "HB-NLP-REV-001"

/-- Whether a step is one of the export statements. -/
def Step.isExport : Step → Bool
  | Step.exportStl _ => true
  | Step.exportStep _ => true
  | Step.exportModel _ => true
  | _ => false

/-- Whether a step list ends with an assembly step combining all five
primitives followed by exactly the two export steps naming
`<engine_name>_3d_model.stl` and `<engine_name>_3d_model.step`. -/
def endsAssemblyTwoExports (engine_name : String) (steps : List Step) : Bool :=
  match steps.reverse with
  | Step.exportStep p2 :: Step.exportStl p1 :: Step.assembly parts :: _ =>
      decide (parts = ["chamber", "throat", "nozzle", "injector", "turbopump"]) &&
      decide (p1 = engine_name ++ "_3d_model.stl") &&
      decide (p2 = engine_name ++ "_3d_model.step")
  | _ => false

/-! ## Summary Emitter formatting

Models of the CPython format specs used by `create_design_summary`
(`src/open_in_plasticity.py`, lines 179, 183, 203; the integration file uses
the identical format strings at lines 170, 172, 191). All three inputs are
exactly representable, so float rounding never fires and ℚ arithmetic agrees
with the source's float arithmetic. -/

/-- Python's `\x7bn:,\x7d` spec groups decimal digits in threes. Here the digits arrive
least-significant first and `k` counts digits already emitted; a comma is
inserted after every third digit that is followed by more digits. -/
def commaRev : List Char → Nat → List Char
  | [], _ => []
  | c :: rest, k =>
      c :: (if (k + 1) % 3 = 0 ∧ rest ≠ [] then ',' :: commaRev rest (k + 1)
            else commaRev rest (k + 1))

/-- Python's `{q:,}` for a value that is a nonnegative integer. -/
def commaFormat (q : ℚ) : String :=
  String.mk ((commaRev (Nat.toDigits 10 q.num.toNat).reverse 0).reverse)

/-- Python's `{q:.1f}` for a nonnegative value: round to one decimal place.
(Ties round half-up here; every use below is tie-free and exact.) -/
def formatFixed1 (q : ℚ) : String :=
  toString (round (q * 10) / 10) ++ "." ++ toString (round (q * 10) % 10)

/-- The thrust fragment of the summary template:
`{thrust:,} N ({thrust/1e6:.1f} MN)`. -/
def summaryThrust (d : EngineDesign) : String :=
  commaFormat d.specifications.thrust ++ " N (" ++
    formatFixed1 (d.specifications.thrust / 1000000) ++ " MN)"

/-- The efficiency fragment of the summary template:
`{efficiency*100:.1f}%`. -/
def summaryEfficiency (d : EngineDesign) : String :=
  formatFixed1 (d.specifications.efficiency * 100) ++ "%"

/-- The computation-speed fragment of the summary template:
`{computation_speed/1e12:.1f} TFLOPS`. -/
def summaryComputationSpeed (d : EngineDesign) : String :=
  formatFixed1 (d.performance_metrics.computation_speed / 1000000000000) ++
    " TFLOPS"

/-! ## Spec Emitter (JSON)

`create_design_file` passes `self.design_data` to `json.dump`; the emitted
text is exactly the JSON serialization of that dict. The Python `json`
module round-trips numbers and strings exactly, so the emitted document is
modelled by its JSON value; parsing is modelled by reading the record back
out of that value. -/

inductive Json where
  | str (s : String)
  | num (q : ℚ)
  | obj (fields : List (String × Json))

/-- Top-level keys of a JSON object, in order. -/
def Json.topKeys : Json → List String
  | Json.obj fields => fields.map Prod.fst
  | _ => []

/-- Key lookup in a JSON object (first match, as in a Python dict). -/
def Json.getKey (j : Json) (k : String) : Option Json :=
  match j with
  | Json.obj fields =>
      match fields.find? (fun kv => kv.1 == k) with
      | some kv => some kv.2
      | none => none
  | _ => none

def Json.asStr : Json → Option String
  | Json.str s => some s
  | _ => none

def Json.asNum : Json → Option ℚ
  | Json.num q => some q
  | _ => none

/-- The nested dicts of `design_data`, serialized by `json.dump` with keys
in declaration order (dict insertion order is preserved). -/
def specsToJson (s : Specifications) : Json :=
  Json.obj
    [ ("thrust", Json.num s.thrust),
      ("specific_impulse", Json.num s.specific_impulse),
      ("chamber_pressure", Json.num s.chamber_pressure),
      ("expansion_ratio", Json.num s.expansion_ratio),
      ("efficiency", Json.num s.efficiency),
      ("technology_readiness_level", Json.num s.technology_readiness_level) ]

def geometryToJson (g : EngineGeometry) : Json :=
  Json.obj
    [ ("chamber_diameter", Json.num g.chamber_diameter),
      ("chamber_length", Json.num g.chamber_length),
      ("throat_diameter", Json.num g.throat_diameter),
      ("exit_diameter", Json.num g.exit_diameter),
      ("nozzle_length", Json.num g.nozzle_length),
      ("expansion_angle", Json.num g.expansion_angle) ]

def materialsToJson (m : Materials) : Json :=
  Json.obj
    [ ("chamber", Json.str m.chamber),
      ("nozzle", Json.str m.nozzle),
      ("injector", Json.str m.injector),
      ("turbopump", Json.str m.turbopump) ]

def perfToJson (p : PerformanceMetrics) : Json :=
  Json.obj
    [ ("cfd_convergence", Json.num p.cfd_convergence),
      ("hardware_utilization", Json.num p.hardware_utilization),
      ("computation_speed", Json.num p.computation_speed),
      ("memory_usage", Json.num p.memory_usage),
      ("temperature", Json.num p.temperature),
      ("power_consumption", Json.num p.power_consumption) ]

def designToJson (d : EngineDesign) : Json :=
  Json.obj
    [ ("name", Json.str d.name),
      ("version", Json.str d.version),
      ("specifications", specsToJson d.specifications),
      ("geometry", geometryToJson d.geometry),
      ("materials", materialsToJson d.materials),
      ("performance_metrics", perfToJson d.performance_metrics) ]

def specsFromJson (j : Json) : Option Specifications := do
  let thrust ← (← j.getKey "thrust").asNum
  let specific_impulse ← (← j.getKey "specific_impulse").asNum
  let chamber_pressure ← (← j.getKey "chamber_pressure").asNum
  let expansion_ratio ← (← j.getKey "expansion_ratio").asNum
  let efficiency ← (← j.getKey "efficiency").asNum
  let trl ← (← j.getKey "technology_readiness_level").asNum
  pure
    { thrust := thrust
      specific_impulse := specific_impulse
      chamber_pressure := chamber_pressure
      expansion_ratio := expansion_ratio
      efficiency := efficiency
      technology_readiness_level := trl }

def geometryFromJson (j : Json) : Option EngineGeometry := do
  let chamber_diameter ← (← j.getKey "chamber_diameter").asNum
  let chamber_length ← (← j.getKey "chamber_length").asNum
  let throat_diameter ← (← j.getKey "throat_diameter").asNum
  let exit_diameter ← (← j.getKey "exit_diameter").asNum
  let nozzle_length ← (← j.getKey "nozzle_length").asNum
  let expansion_angle ← (← j.getKey "expansion_angle").asNum
  pure
    { chamber_diameter := chamber_diameter
      chamber_length := chamber_length
      throat_diameter := throat_diameter
      exit_diameter := exit_diameter
      nozzle_length := nozzle_length
      expansion_angle := expansion_angle }

def materialsFromJson (j : Json) : Option Materials := do
  let chamber ← (← j.getKey "chamber").asStr
  let nozzle ← (← j.getKey "nozzle").asStr
  let injector ← (← j.getKey "injector").asStr
  let turbopump ← (← j.getKey "turbopump").asStr
  pure { chamber := chamber, nozzle := nozzle, injector := injector,
         turbopump := turbopump }

def perfFromJson (j : Json) : Option PerformanceMetrics := do
  let cfd_convergence ← (← j.getKey "cfd_convergence").asNum
  let hardware_utilization ← (← j.getKey "hardware_utilization").asNum
  let computation_speed ← (← j.getKey "computation_speed").asNum
  let memory_usage ← (← j.getKey "memory_usage").asNum
  let temperature ← (← j.getKey "temperature").asNum
  let power_consumption ← (← j.getKey "power_consumption").asNum
  pure
    { cfd_convergence := cfd_convergence
      hardware_utilization := hardware_utilization
      computation_speed := computation_speed
      memory_usage := memory_usage
      temperature := temperature
      power_consumption := power_consumption }

def jsonToDesign (j : Json) : Option EngineDesign := do
  let name ← (← j.getKey "name").asStr
  let version ← (← j.getKey "version").asStr
  let specifications ← specsFromJson (← j.getKey "specifications")
  let geometry ← geometryFromJson (← j.getKey "geometry")
  let materials ← materialsFromJson (← j.getKey "materials")
  let performance_metrics ← perfFromJson (← j.getKey "performance_metrics")
  pure
    { name := name
      version := version
      specifications := specifications
      geometry := geometry
      materials := materials
      performance_metrics := performance_metrics }

/-! ## Launcher (`open_in_plasticity`)

The launcher's effects are modelled explicitly: a file system mapping path
strings to structured file contents, a console as the list of printed
lines, and the host environment as a function telling how `subprocess.run`
ends for each binary path. -/

/-- Contents of a written file, kept structured: the design JSON document,
the rendered script (as its build steps), or arbitrary pre-existing text. -/
inductive FileContent where
  | jsonOf (j : Json)
  | scriptOf (steps : List Step)
  | raw (s : String)

/-- A file system: an association list from paths to contents. -/
def FileSys := List (String × FileContent)

/-- First-match lookup. -/
def fsLookup (fs : FileSys) (p : String) : Option FileContent :=
  match fs.find? (fun kv => kv.1 == p) with
  | some kv => some kv.2
  | none => none

/-- Write (replace-or-append). -/
def fsWrite (fs : FileSys) (p : String) (c : FileContent) : FileSys :=
  match fs with
  | [] => [(p, c)]
  | kv :: rest => if kv.1 == p then (p, c) :: rest else kv :: fsWrite rest p c

/-- How `subprocess.run([path, ...], check=True)` ends on the host:
normally, with `subprocess.CalledProcessError`, or with `FileNotFoundError`
(the binary path does not exist). -/
inductive RunResult where
  | ok
  | calledProcessError
  | fileNotFound
deriving DecidableEq, Repr

/-- The fixed ordered candidate list `plasticity_paths`
(`src/Scripts/Integration/open_in_plasticity.py`, lines 138-143). -/
def plasticityPaths : List String :=
  [ "/Applications/Plasticity.app/Contents/MacOS/Plasticity",
    "C:\\Program Files\\Plasticity\\Plasticity.exe",
    "/usr/local/bin/plasticity",
    "plasticity" ]

/-- The `for path in plasticity_paths` loop, lines 145-151: run each
candidate in order; a candidate that raises `CalledProcessError` or
`FileNotFoundError` is skipped with `continue`. Returns whether some
candidate succeeded, and the candidates actually run, in order. -/
def tryLaunch (env : String → RunResult) : List String → Bool × List String
  | [] => (false, [])
  | p :: rest =>
      match env p with
      | RunResult.ok => (true, [p])
      | _ =>
          let r := tryLaunch env rest
          (r.1, p :: r.2)

/-- Path `self.design_dir / "design.json"` of the integration designer
(design_dir is `<project root>/Docs/Designs/HB-NLP-REV-001`). -/
def integrationDesignFilePath : String :=
  "Docs/Designs/HB-NLP-REV-001/design.json"

/-- Path `self.design_dir / "design_script.py"` of the integration designer. -/
def integrationScriptFilePath : String :=
  "Docs/Designs/HB-NLP-REV-001/design_script.py"

/-- Method `create_design_file` of the integration designer (lines 57-65): dump
`design_data` as JSON and report. -/
def integrationCreateDesignFile (fs : FileSys) : FileSys × List String :=
  (fsWrite fs integrationDesignFilePath
      (FileContent.jsonOf (designToJson integrationDesignData)),
   ["✅ Created design file: " ++ integrationDesignFilePath])

/-- Method `generate_3d_model_script` of the integration designer
(lines 67-122). -/
def integrationCreateScriptFile (fs : FileSys) : FileSys × List String :=
  (fsWrite fs integrationScriptFilePath
      (FileContent.scriptOf (integrationScriptSteps engineName integrationDesignData)),
   ["✅ Created Plasticity script: " ++ integrationScriptFilePath])

/-- Outcome of one launcher run: the returned flag, the console lines, the
resulting file system, and the binary paths passed to `subprocess.run`. -/
structure LaunchOutcome where
  success : Bool
  printed : List String
  fs : FileSys
  attempts : List String

/-- Method `open_in_plasticity` of `src/Scripts/Integration/open_in_plasticity.py`,
lines 124-160: create the two artifacts only if absent, then probe the
candidate list; on exhaustion print the manual instructions (naming both
file paths) and return False. -/
def integrationOpen (env : String → RunResult) (fs : FileSys) : LaunchOutcome :=
  let step1 :=
    if (fsLookup fs integrationDesignFilePath).isNone then
      integrationCreateDesignFile fs
    else (fs, [])
  let step2 :=
    if (fsLookup step1.1 integrationScriptFilePath).isNone then
      integrationCreateScriptFile step1.1
    else (step1.1, [])
  let launch := tryLaunch env plasticityPaths
  if launch.1 then
    { success := true
      printed := step1.2 ++ step2.2 ++ ["✅ Opened design in Plasticity"]
      fs := step2.1
      attempts := launch.2 }
  else
    { success := false
      printed := step1.2 ++ step2.2 ++
        [ "⚠️  Plasticity not found. Please open manually:",
          "   Design file: " ++ integrationDesignFilePath,
          "   Script file: " ++ integrationScriptFilePath ]
      fs := step2.1
      attempts := launch.2 }

/-- Path `f"\x7bself.engine_name\x7d_design.json"` of the root designer. -/
def rootDesignFilePath : String := "HB-NLP-REV-001_design.json"

/-- Path `f"\x7bself.engine_name\x7d_design_script.py"` of the root designer. -/
def rootScriptFilePath : String := "HB-NLP-REV-001_design_script.py"

/-- Method `create_design_file` of the root designer (lines 51-59). -/
def rootCreateDesignFile (fs : FileSys) : FileSys × List String :=
  (fsWrite fs rootDesignFilePath
      (FileContent.jsonOf (designToJson rootDesignData)),
   ["✅ Created design file: " ++ rootDesignFilePath])

/-- Method `generate_3d_model_script` of the root designer (lines 61-133). -/
def rootCreateScriptFile (fs : FileSys) : FileSys × List String :=
  (fsWrite fs rootScriptFilePath
      (FileContent.scriptOf (rootScriptSteps engineName rootDesignData)),
   ["✅ Created Plasticity script: " ++ rootScriptFilePath])

/-- Method `open_in_plasticity` of `src/open_in_plasticity.py`, lines 135-166: it
unconditionally regenerates both artifacts, prints both file paths, then
runs the single candidate `plasticity`. `CalledProcessError` is caught by
the inner handler and still returns True; `FileNotFoundError` is not, so it
falls to the outer `except Exception`, which prints the error and returns
False. -/
def rootOpen (env : String → RunResult) (fs : FileSys) : LaunchOutcome :=
  let step1 := rootCreateDesignFile fs
  let step2 := rootCreateScriptFile step1.1
  let header :=
    [ "\n🎨 Opening HB-NLP Engine Design in Plasticity...",
      "   Design File: " ++ rootDesignFilePath,
      "   Script File: " ++ rootScriptFilePath,
      "   Engine Name: " ++ engineName ]
  match env "plasticity" with
  | RunResult.ok =>
      { success := true
        printed := step1.2 ++ step2.2 ++ header ++
          [ "✅ Plasticity launched successfully!", "📋 Instructions:" ]
        fs := step2.1
        attempts := ["plasticity"] }
  | RunResult.calledProcessError =>
      { success := true
        printed := step1.2 ++ step2.2 ++ header ++
          [ "⚠️  Could not launch Plasticity GUI: ...",
            "   You can manually open Plasticity and load the design files" ]
        fs := step2.1
        attempts := ["plasticity"] }
  | RunResult.fileNotFound =>
      { success := false
        printed := step1.2 ++ step2.2 ++ header ++
          [ "❌ Error opening design in Plasticity: ..." ]
        fs := step2.1
        attempts := ["plasticity"] }

/-! ## Geometry Sampler point grids (`src/engine_visualization.py`, 44-69)

The samplers are embedded polymorphically over a field `K`, with the trig
functions and the constant `2*pi` as parameters; theorems instantiate them
at `ℝ`, `Real.cos`, `Real.sin` and `2 * Real.pi`. `create_cone` divides by
`height`, which numpy turns into NaN/±Inf when `height = 0`; its arithmetic
is therefore tracked in `Option K`, where `none` stands for a non-finite
float and propagates through every operation. `create_cylinder` performs no
division, so it is embedded with plain values. -/

/-- Model of `np.linspace(a, b, n)`: `n` evenly spaced samples from `a` to
`b`, both
endpoints included (numpy's default `endpoint=True`); `n = 1` yields `[a]`
(matched here by `x / 0 = 0`). -/
def linspace {K : Type} [Field K] (a b : K) (n : ℕ) : List K :=
  (List.range n).map fun i : ℕ => a + (b - a) * (i : K) / ((n - 1 : ℕ) : K)

/-- The sweep `theta = np.linspace(0, 2*np.pi, resolution)` (lines 46, 58). -/
def thetaSamples {K : Type} [Field K] (twoPi : K) (resolution : ℕ) : List K :=
  linspace 0 twoPi resolution

/-- The levels `z = np.linspace(0, height, 2)` (lines 47 and 59). -/
def zLevels {K : Type} [Field K] (height : K) : List K :=
  linspace 0 height 2

/-- Method `EngineVisualizer.create_cylinder` (lines 44-54): the meshgrid
cross of
the two z levels with the angular sweep, mapped to
`(radius*cos θ + x_offset, radius*sin θ + y_offset, z + z_offset)`. -/
def create_cylinder {K : Type} [Field K] (fcos fsin : K → K) (twoPi : K)
    (radius height x_offset y_offset z_offset : K) (resolution : ℕ) :
    List (K × K × K) :=
  (zLevels height).flatMap fun z =>
    (thetaSamples twoPi resolution).map fun t =>
      (radius * fcos t + x_offset, radius * fsin t + y_offset, z + z_offset)

/-- Float addition with non-finite tracking. -/
def fadd {K : Type} [Field K] : Option K → Option K → Option K
  | none, _ => none
  | some _, none => none
  | some a, some b => some (a + b)

/-- Float multiplication with non-finite tracking. -/
def fmul {K : Type} [Field K] : Option K → Option K → Option K
  | none, _ => none
  | some _, none => none
  | some a, some b => some (a * b)

/-- Float division: division by zero is non-finite (numpy: `0/0` is NaN,
`x/0` is ±Inf), and non-finite operands propagate. -/
def fdiv {K : Type} [Field K] [DecidableEq K] : Option K → Option K → Option K
  | none, _ => none
  | some _, none => none
  | some a, some b => if b = 0 then none else some (a / b)

/-- Method `EngineVisualizer.create_cone` (lines 56-69): as the cylinder,
but the
radius is interpolated per point:
`radius = base_radius + (top_radius - base_radius) * (z_grid / height)`,
with the float arithmetic tracked in `Option K`. -/
def create_cone {K : Type} [Field K] [DecidableEq K]
    (fcos fsin : Option K → Option K) (twoPi : K)
    (base_radius top_radius height x_offset y_offset z_offset : K)
    (resolution : ℕ) : List (Option K × Option K × Option K) :=
  (zLevels height).flatMap fun z =>
    (thetaSamples twoPi resolution).map fun t =>
      (fadd (fmul (fadd (some base_radius)
              (fmul (some (top_radius - base_radius))
                (fdiv (some z) (some height))))
            (fcos (some t)))
          (some x_offset),
       fadd (fmul (fadd (some base_radius)
              (fmul (some (top_radius - base_radius))
                (fdiv (some z) (some height))))
            (fsin (some t)))
          (some y_offset),
       fadd (some z) (some z_offset))

/-! ## Theorems -/

/-- C3: the frustum radius function r(z) = base_radius +
(top_radius - base_radius) * (z / height) satisfies, for every base_radius,
top_radius and every height > 0: r(0) = base_radius, r(height) = top_radius,
and r(height/2) = (base_radius + top_radius) / 2. -/
theorem coneRadius_endpoints_and_midpoint (base_radius top_radius height : ℚ)
    (hpos : 0 < height) :
    coneRadius base_radius top_radius height 0 = base_radius ∧
    coneRadius base_radius top_radius height height = top_radius ∧
    coneRadius base_radius top_radius height (height / 2) =
      (base_radius + top_radius) / 2 := by
  have hne : height ≠ 0 := ne_of_gt hpos
  refine ⟨?_, ?_, ?_⟩
  · field_simp [coneRadius]
  · field_simp [coneRadius]
  · field_simp [coneRadius]
    ring

/-- Witness for C3 at base_radius = 2, top_radius = 2/5, height = 6. -/
theorem coneRadius_endpoints_and_midpoint_witness :
    (0 : ℚ) < 6 ∧
    (coneRadius 2 (2/5) 6 0 = 2 ∧
     coneRadius 2 (2/5) 6 6 = 2/5 ∧
     coneRadius 2 (2/5) 6 (6 / 2) = (2 + 2/5) / 2) :=
  ⟨by norm_num, coneRadius_endpoints_and_midpoint 2 (2/5) 6 (by norm_num)⟩

theorem specs_round_trip (s : Specifications) :
    specsFromJson (specsToJson s) = some s := rfl

theorem geometry_round_trip (g : EngineGeometry) :
    geometryFromJson (geometryToJson g) = some g := rfl

theorem materials_round_trip (m : Materials) :
    materialsFromJson (materialsToJson m) = some m := rfl

theorem perf_round_trip (p : PerformanceMetrics) :
    perfFromJson (perfToJson p) = some p := rfl

/-- C2: for every EngineDesign record, parsing the JSON document written by
the Spec Emitter (`create_design_file`) yields a record equal key-for-key
and value-for-value to the input, and the document's top-level keys are
name, version, specifications, geometry, materials, performance_metrics. -/
theorem design_json_round_trip (d : EngineDesign) :
    jsonToDesign (designToJson d) = some d ∧
    (designToJson d).topKeys =
      ["name", "version", "specifications", "geometry", "materials",
       "performance_metrics"] := by
  refine ⟨?_, rfl⟩
  simp [jsonToDesign, designToJson, Json.getKey, Json.asStr,
    specs_round_trip, geometry_round_trip, materials_round_trip,
    perf_round_trip]

/-- C1: for the canonical EngineDesign record (thrust 2000000 N,
chamber_diameter 2.5 m, throat_diameter 0.8 m, exit_diameter 4.0 m,
nozzle_length 6.0 m), both script emitters emit a chamber cylinder step with
radius 1.25, a throat cylinder step with radius 0.4, and a cone step with
base_radius 2.0, top_radius 0.4, height 6.0 (the geometry diameters halved). -/
theorem script_canonical_radii :
    (rootScriptSteps engineName rootDesignData).get? 0 =
      some (Step.cylinder 1.25 3 "Advanced Superalloy") ∧
    (rootScriptSteps engineName rootDesignData).get? 1 =
      some (Step.cylinder 0.4 0.5 "Advanced Superalloy") ∧
    (rootScriptSteps engineName rootDesignData).get? 2 =
      some (Step.cone 2 0.4 6 "Carbon-Carbon Composite") ∧
    (integrationScriptSteps engineName integrationDesignData).get? 0 =
      some (Step.cylinder 1.25 3 "Advanced Superalloy") ∧
    (integrationScriptSteps engineName integrationDesignData).get? 1 =
      some (Step.cylinder 0.4 0.5 "Advanced Superalloy") ∧
    (integrationScriptSteps engineName integrationDesignData).get? 2 =
      some (Step.cone 2 0.4 6 "Carbon-Carbon Composite") := by
  refine ⟨?_, ?_, ?_, ?_, ?_, ?_⟩ <;>
    norm_num [rootScriptSteps, integrationScriptSteps, rootDesignData,
      integrationDesignData]

/-- C4: the Summary Emitter's unit conversions are exact for the known
inputs: thrust 2000000 N renders as "2,000,000 N (2.0 MN)", efficiency 0.95
renders as "95.0%", and computation_speed 1.5e12 renders as "1.5 TFLOPS". -/
theorem summary_conversions_exact :
    summaryThrust rootDesignData = "2,000,000 N (2.0 MN)" ∧
    summaryEfficiency rootDesignData = "95.0%" ∧
    summaryComputationSpeed rootDesignData = "1.5 TFLOPS" := by
  refine ⟨?_, ?_, ?_⟩
  · show commaFormat 2000000 ++ " N (" ++
      formatFixed1 ((2000000 : ℚ) / 1000000) ++ " MN)" = _
    have h : ((2000000 : ℚ) / 1000000) * 10 = 20 := by norm_num
    rw [formatFixed1, h]
    have h2 : round (20 : ℚ) = 20 := by norm_num
    rw [h2]
    decide
  · show formatFixed1 ((0.95 : ℚ) * 100) ++ "%" = _
    have h : ((0.95 : ℚ) * 100) * 10 = 950 := by norm_num
    rw [formatFixed1, h]
    have h2 : round (950 : ℚ) = 950 := by norm_num
    rw [h2]
    decide
  · show formatFixed1 ((1500000000000 : ℚ) / 1000000000000) ++ " TFLOPS" = _
    have h : ((1500000000000 : ℚ) / 1000000000000) * 10 = 15 := by norm_num
    rw [formatFixed1, h]
    have h2 : round (15 : ℚ) = 15 := by norm_num
    rw [h2]
    decide

/-- C6 counterexample: the root script emitter's output, at the canonical
engine name and record, does not end with an assembly step followed by two
export steps; it contains exactly one export step (the `.stl` one). -/
theorem rootScript_not_two_exports :
    endsAssemblyTwoExports engineName (rootScriptSteps engineName rootDesignData)
      = false ∧
    ((rootScriptSteps engineName rootDesignData).filter Step.isExport).length
      = 1 :=
  ⟨rfl, rfl⟩

/-- C6 amended: for every engine name and EngineDesign, the integration
script emitter's output ends with an assembly step combining all five
primitives followed by exactly two export steps naming
`<engine_name>_3d_model.stl` and `<engine_name>_3d_model.step`; the root
emitter's output instead has exactly one export step, naming
`<engine_name>_3d_model.stl`. -/
theorem integrationScript_ends_assembly_two_exports (engine_name : String)
    (d : EngineDesign) :
    endsAssemblyTwoExports engine_name (integrationScriptSteps engine_name d)
      = true ∧
    ((integrationScriptSteps engine_name d).filter Step.isExport).length = 2 ∧
    ((rootScriptSteps engine_name d).filter Step.isExport).length = 1 ∧
    (rootScriptSteps engine_name d).get? 8 =
      some (Step.exportModel (engine_name ++ "_3d_model.stl")) := by
  refine ⟨?_, rfl, rfl, rfl⟩
  simp [endsAssemblyTwoExports, integrationScriptSteps]

theorem tryLaunch_all_not_found (env : String → RunResult)
    (h : ∀ p, env p = RunResult.fileNotFound) (l : List String) :
    tryLaunch env l = (false, l) := by
  induction l with
  | nil => rfl
  | cons p rest ih => simp [tryLaunch, h p, ih]

/-- C5: when no candidate CAD binary exists on the host (every
`subprocess.run` raises `FileNotFoundError`), both launchers return False
without raising, print the two generated file paths, and the integration
launcher tries each candidate of its fixed ordered duplicate-free list
exactly once. -/
theorem launcher_no_binary_fails (env : String → RunResult) (fs : FileSys)
    (h : ∀ p, env p = RunResult.fileNotFound) :
    (integrationOpen env fs).success = false ∧
    ("   Design file: " ++ integrationDesignFilePath) ∈
      (integrationOpen env fs).printed ∧
    ("   Script file: " ++ integrationScriptFilePath) ∈
      (integrationOpen env fs).printed ∧
    (integrationOpen env fs).attempts = plasticityPaths ∧
    plasticityPaths.Nodup ∧
    (rootOpen env fs).success = false ∧
    ("   Design File: " ++ rootDesignFilePath) ∈ (rootOpen env fs).printed ∧
    ("   Script File: " ++ rootScriptFilePath) ∈ (rootOpen env fs).printed := by
  have ht := tryLaunch_all_not_found env h plasticityPaths
  refine ⟨?_, ?_, ?_, ?_, ?_, ?_, ?_, ?_⟩
  · simp [integrationOpen, ht]
  · simp [integrationOpen, ht]
  · simp [integrationOpen, ht]
  · simp [integrationOpen, ht]
  · simp [plasticityPaths]
  · simp [rootOpen, h "plasticity"]
  · simp [rootOpen, h "plasticity"]
  · simp [rootOpen, h "plasticity"]

/-- Witness for C5: the everywhere-absent host environment and an empty
file system. -/
theorem launcher_no_binary_fails_witness :
    (∀ p : String,
      (fun _ : String => RunResult.fileNotFound) p = RunResult.fileNotFound) ∧
    ((integrationOpen (fun _ => RunResult.fileNotFound) []).success = false ∧
     ("   Design file: " ++ integrationDesignFilePath) ∈
       (integrationOpen (fun _ => RunResult.fileNotFound) []).printed ∧
     ("   Script file: " ++ integrationScriptFilePath) ∈
       (integrationOpen (fun _ => RunResult.fileNotFound) []).printed ∧
     (integrationOpen (fun _ => RunResult.fileNotFound) []).attempts =
       plasticityPaths ∧
     plasticityPaths.Nodup ∧
     (rootOpen (fun _ => RunResult.fileNotFound) []).success = false ∧
     ("   Design File: " ++ rootDesignFilePath) ∈
       (rootOpen (fun _ => RunResult.fileNotFound) []).printed ∧
     ("   Script File: " ++ rootScriptFilePath) ∈
       (rootOpen (fun _ => RunResult.fileNotFound) []).printed) :=
  ⟨fun _ => rfl,
   launcher_no_binary_fails (fun _ => RunResult.fileNotFound) [] (fun _ => rfl)⟩

/-- C7 counterexample: the root launcher regenerates the design file even
when it already exists — pre-existing contents are overwritten. -/
theorem rootOpen_overwrites_existing :
    fsLookup
      ((rootOpen (fun _ => RunResult.fileNotFound)
          [(rootDesignFilePath, FileContent.raw "user-edited"),
           (rootScriptFilePath, FileContent.raw "user-edited-2")]).fs)
      rootDesignFilePath ≠ some (FileContent.raw "user-edited") := by
  simp [rootOpen, rootCreateDesignFile, rootCreateScriptFile, fsWrite,
    fsLookup, rootDesignFilePath, rootScriptFilePath]

/-- C7 amended: the integration launcher generates the Script and Spec
artifacts only when they are absent — if both files already exist, the file
system is left unchanged before the external process is attempted; the root
launcher instead unconditionally regenerates and overwrites both files. -/
theorem integrationOpen_preserves_existing (env : String → RunResult)
    (fs : FileSys)
    (hd : (fsLookup fs integrationDesignFilePath).isSome = true)
    (hs : (fsLookup fs integrationScriptFilePath).isSome = true) :
    (integrationOpen env fs).fs = fs := by
  obtain ⟨c1, hc1⟩ := Option.isSome_iff_exists.mp hd
  obtain ⟨c2, hc2⟩ := Option.isSome_iff_exists.mp hs
  simp only [integrationOpen, hc1, hc2, Option.isNone_some, Bool.false_eq_true,
    if_false]
  split <;> rfl

/-- Witness for C7's amended theorem: both artifacts already present. -/
theorem integrationOpen_preserves_existing_witness :
    ((fsLookup [(integrationDesignFilePath, FileContent.raw "a"),
        (integrationScriptFilePath, FileContent.raw "b")]
        integrationDesignFilePath).isSome = true ∧
     (fsLookup [(integrationDesignFilePath, FileContent.raw "a"),
        (integrationScriptFilePath, FileContent.raw "b")]
        integrationScriptFilePath).isSome = true) ∧
    (integrationOpen (fun _ => RunResult.ok)
        [(integrationDesignFilePath, FileContent.raw "a"),
         (integrationScriptFilePath, FileContent.raw "b")]).fs =
      [(integrationDesignFilePath, FileContent.raw "a"),
       (integrationScriptFilePath, FileContent.raw "b")] :=
  ⟨⟨rfl, rfl⟩,
   integrationOpen_preserves_existing (fun _ => RunResult.ok) _ rfl rfl⟩

/-- C8 counterexample: `np.linspace(0, 2*np.pi, resolution)` includes its
endpoint, so at the source's default resolution of 20 the angular sweep used
by `create_cylinder` does contain the angle 2π — the sweep is over the
closed interval [0, 2π], not the half-open [0, 2π). -/
theorem cylinder_sweep_includes_two_pi :
    (2 * Real.pi) ∈ thetaSamples (2 * Real.pi) 20 := by
  have h : (0 : ℝ) + (2 * Real.pi - 0) * ((19 : ℕ) : ℝ) / (((20 - 1 : ℕ)) : ℝ)
      = 2 * Real.pi := by
    norm_num
  refine List.mem_map.mpr ⟨19, ?_, h⟩
  simp

/-- C8 amended: for every radius, height, offsets and resolution ≥ 2, the
cylinder sampler's angles form the even sweep θᵢ = 2πi/(resolution-1) over
the closed interval [0, 2π] (endpoint included, so the angular position of
the last sample coincides with the first), crossed with exactly the two
height levels 0 and height, each point shifted by the (x, y, z) offsets. -/
theorem create_cylinder_closed_sweep (radius height xo yo zo : ℝ)
    (resolution : ℕ) (hres : 2 ≤ resolution) :
    thetaSamples (2 * Real.pi) resolution
      = (List.range resolution).map
          (fun i : ℕ => 2 * Real.pi * i / ((resolution : ℝ) - 1)) ∧
    (thetaSamples (2 * Real.pi) resolution : List ℝ).getLast?
      = some (2 * Real.pi) ∧
    zLevels (height : ℝ) = [0, height] ∧
    (∀ p ∈ create_cylinder Real.cos Real.sin (2 * Real.pi) radius height xo yo
        zo resolution,
       ∃ t ∈ thetaSamples (2 * Real.pi) resolution,
         p = (radius * Real.cos t + xo, radius * Real.sin t + yo, 0 + zo) ∨
         p = (radius * Real.cos t + xo, radius * Real.sin t + yo, height + zo))
    := by
  have h1 : (1 : ℕ) ≤ resolution := by omega
  have hcast : (((resolution - 1 : ℕ)) : ℝ) = (resolution : ℝ) - 1 := by
    push_cast [Nat.cast_sub h1]
    ring
  have hmap : thetaSamples (2 * Real.pi) resolution
      = (List.range resolution).map
          (fun i : ℕ => 2 * Real.pi * i / ((resolution : ℝ) - 1)) := by
    unfold thetaSamples linspace
    refine List.map_congr_left ?_
    intro i _
    rw [hcast]
    ring
  have hz : zLevels (height : ℝ) = [0, height] := by
    unfold zLevels linspace
    rw [List.range_succ, List.range_succ, List.range_zero]
    norm_num
  refine ⟨hmap, ?_, hz, ?_⟩
  · obtain ⟨m, rfl⟩ : ∃ m, resolution = m + 1 := ⟨resolution - 1, by omega⟩
    rw [hmap, List.range_succ, List.map_append]
    have hm : (1 : ℕ) ≤ m := by omega
    have hmne : ((m : ℝ)) ≠ 0 := by
      have : (1 : ℝ) ≤ (m : ℝ) := by exact_mod_cast hm
      linarith
    have hval : 2 * Real.pi * (m : ℝ) / ((((m + 1 : ℕ)) : ℝ) - 1)
        = 2 * Real.pi := by
      push_cast
      field_simp
    simp only [List.map_cons, List.map_nil, List.getLast?_concat]
    rw [hval]
  · intro p hp
    rw [create_cylinder, hz] at hp
    simp only [List.flatMap_cons, List.flatMap_nil, List.append_nil,
      List.mem_append, List.mem_map] at hp
    rcases hp with ⟨t, ht, rfl⟩ | ⟨t, ht, rfl⟩
    · exact ⟨t, ht, Or.inl rfl⟩
    · exact ⟨t, ht, Or.inr rfl⟩

/-- Witness for C8's amended theorem at radius 1, height 2, offsets
(3, 4, 5), resolution 2. -/
theorem create_cylinder_closed_sweep_witness :
    (2 : ℕ) ≤ 2 ∧
    (thetaSamples (2 * Real.pi) 2
      = (List.range 2).map (fun i : ℕ => 2 * Real.pi * i / ((2 : ℝ) - 1)) ∧
    (thetaSamples (2 * Real.pi) 2 : List ℝ).getLast? = some (2 * Real.pi) ∧
    zLevels ((2 : ℝ)) = [0, 2] ∧
    (∀ p ∈ create_cylinder Real.cos Real.sin (2 * Real.pi) 1 2 3 4 5 2,
       ∃ t ∈ thetaSamples (2 * Real.pi) 2,
         p = (1 * Real.cos t + 3, 1 * Real.sin t + 4, 0 + 5) ∨
         p = (1 * Real.cos t + 3, 1 * Real.sin t + 4, 2 + 5))) :=
  ⟨by norm_num, create_cylinder_closed_sweep 1 2 3 4 5 2 (by norm_num)⟩

/-- C9 counterexample: with height = 0 the frustum sampler's points do not
all have finite coordinates — `z_grid / height` is `0/0` (NaN), so the x
(and y) coordinates of the sampled points are non-finite. Here the first
sampled point at the source's call shape (resolution 20) has `none` for x. -/
theorem create_cone_zero_height_not_finite :
    ∃ p ∈ create_cone (Option.map Real.cos) (Option.map Real.sin)
        (2 * Real.pi) 2 (2/5) 0 0 0 5 20,
      p.1 = none := by
  have hz : zLevels (0 : ℝ) = [0, 0] := by
    unfold zLevels linspace
    rw [List.range_succ, List.range_succ, List.range_zero]
    simp
  have hdiv : fdiv (some (0 : ℝ)) (some (0 : ℝ)) = none := by
    simp [fdiv]
  refine ⟨(none, none, fadd (some 0) (some 5)), ?_, rfl⟩
  rw [create_cone, hz]
  simp only [List.flatMap_cons, List.flatMap_nil, List.append_nil,
    List.mem_append, List.mem_map]
  refine Or.inl ⟨(0 : ℝ), ?_, ?_⟩
  · unfold thetaSamples linspace
    refine List.mem_map.mpr ⟨0, ?_, by norm_num⟩
    simp
  · simp [hdiv, fadd, fmul]

/-- C9 amended: calling the frustum sampler with height = 0 raises no error
and every sampled point lies at z = z_offset, but the x and y coordinates
are non-finite (NaN from `0/0`) rather than well-defined finite values —
for every trig model, every geometry, and every resolution. -/
theorem create_cone_zero_height_degenerate {K : Type} [Field K]
    [DecidableEq K] (fcos fsin : Option K → Option K)
    (twoPi base_radius top_radius xo yo zo : K) (resolution : ℕ) :
    ∀ p ∈ create_cone fcos fsin twoPi base_radius top_radius 0 xo yo zo
        resolution,
      p.1 = none ∧ p.2.1 = none ∧ p.2.2 = some zo := by
  intro p hp
  have hz : zLevels (0 : K) = [0, 0] := by
    unfold zLevels linspace
    rw [List.range_succ, List.range_succ, List.range_zero]
    simp
  rw [create_cone, hz] at hp
  simp only [List.flatMap_cons, List.flatMap_nil, List.append_nil,
    List.mem_append, List.mem_map] at hp
  have hdiv : fdiv (some (0 : K)) (some (0 : K)) = none := by
    simp [fdiv]
  rcases hp with ⟨t, _, rfl⟩ | ⟨t, _, rfl⟩ <;>
    simp [hdiv, fadd, fmul]

/-- Witness for C9's amended theorem: a concrete point of a concrete
zero-height cone (over ℚ, with the trig parameters instantiated by `id`). -/
theorem create_cone_zero_height_degenerate_witness :
    ((none, none, some (5 : ℚ)) ∈
      create_cone (K := ℚ) id id 7 2 (2/5) 0 0 0 5 2) ∧
    ((none : Option ℚ) = none ∧ (none : Option ℚ) = none ∧
      (some (5 : ℚ)) = some (5 : ℚ)) := by
  have hz : zLevels (0 : ℚ) = [0, 0] := by
    unfold zLevels linspace
    rw [List.range_succ, List.range_succ, List.range_zero]
    simp
  have hmem : (none, none, some (5 : ℚ)) ∈
      create_cone (K := ℚ) id id 7 2 (2/5) 0 0 0 5 2 := by
    rw [create_cone, hz]
    simp only [List.flatMap_cons, List.flatMap_nil, List.append_nil,
      List.mem_append, List.mem_map]
    refine Or.inl ⟨(0 : ℚ), ?_, ?_⟩
    · unfold thetaSamples linspace
      rw [List.range_succ, List.range_succ, List.range_zero]
      simp
    · simp [fdiv, fadd, fmul]
  exact ⟨hmem,
    create_cone_zero_height_degenerate (K := ℚ) id id 7 2 (2/5) 0 0 5 2 _ hmem⟩

/-- C10: the three hardcoded design_data records agree on every attribute
group they all declare (name, version, specifications, geometry, materials);
the two full records are moreover equal outright. -/
theorem design_data_records_agree :
    rootDesignData = integrationDesignData ∧
    vizDesignData.name = rootDesignData.name ∧
    vizDesignData.version = rootDesignData.version ∧
    vizDesignData.specifications = rootDesignData.specifications ∧
    vizDesignData.geometry = rootDesignData.geometry ∧
    vizDesignData.materials = rootDesignData.materials := by
  refine ⟨rfl, rfl, rfl, rfl, rfl, rfl⟩
